import Mathlib

/-!
Shallow embedding of the swipe-to-match core of the SWAPIT application.

The store model mirrors the two Supabase tables the core touches
(swap_requests and notifications) and the operations performed on them by
Discover.tsx (handleSwipe) and Dashboard.tsx (handleAcceptRequest,
handleRejectRequest, fetchMatches, fetchPendingRequests).  User ids and
record ids are modelled as natural numbers; the database is a record of
lists, and each Supabase call becomes a pure function on it.
-/

namespace Swapit

/-- The swipe_type column: "normal" or "super" (Discover.tsx line 128). -/
inductive SwipeType where
  | normal
  | super
deriving DecidableEq, Repr

/-- The status column of swap_requests: "pending", "matched" or "rejected". -/
inductive Status where
  | pending
  | matched
  | rejected
deriving DecidableEq, Repr

/-- A row of the swap_requests table (the InterestSignal of the spec). -/
structure SwapRequest where
  id : Nat
  from_user_id : Nat
  to_user_id : Nat
  swipe_type : SwipeType
  status : Status
deriving DecidableEq, Repr

/-- A row of the notifications table, as inserted by the two match paths:
user_id is the recipient, ntype is the "type" column, title the "title"
column.  The free-text "message" column is presentational and omitted. -/
structure Notification where
  user_id : Nat
  ntype : String
  title : String
deriving DecidableEq, Repr

/-- The shared mutable state: the two tables plus the id sequence used for
newly inserted swap_requests. -/
structure Store where
  swap_requests : List SwapRequest
  notifications : List Notification
  nextId : Nat
deriving DecidableEq, Repr

/-- Does a swap_request for the ordered pair (f, t) already exist?  This is
the condition under which the Postgres unique constraint makes the insert in
Discover.tsx lines 123-130 fail with duplicate-key error code 23505. -/
def recordExists (db : Store) (f t : Nat) : Bool :=
  db.swap_requests.any (fun r => r.from_user_id == f && r.to_user_id == t)

/-- The insert of Discover.tsx lines 123-130: a new row with status
"pending" unless the ordered pair already exists; the Bool reports the
duplicate-key outcome (error code 23505). -/
def insertRequest (db : Store) (f t : Nat) (k : SwipeType) : Store × Bool :=
  if recordExists db f t then (db, true)
  else
    ({ db with
        swap_requests :=
          db.swap_requests ++ [⟨db.nextId, f, t, k, Status.pending⟩],
        nextId := db.nextId + 1 },
      false)

/-- The row filter of the mutual-match query of Discover.tsx lines 137-143:
from_user_id = f, to_user_id = t and status "pending". -/
def mmPred (f t : Nat) (r : SwapRequest) : Bool :=
  r.from_user_id == f && r.to_user_id == t && r.status == Status.pending

/-- The mutual-match query of Discover.tsx lines 137-143: select the row
satisfying mmPred (single row by the uniqueness constraint). -/
def findMutualMatch (db : Store) (f t : Nat) : Option SwapRequest :=
  db.swap_requests.find? (mmPred f t)

/-- The update of Discover.tsx lines 147-150 and Dashboard.tsx lines 139-142
and 170-173: set status = s on every row whose id equals i, with no guard on
the current status. -/
def updateStatus (db : Store) (i : Nat) (s : Status) : Store :=
  { db with
      swap_requests :=
        db.swap_requests.map
          (fun r => if r.id == i then { r with status := s } else r) }

/-- The notification insert of Discover.tsx lines 153-160 and Dashboard.tsx
lines 149-156. -/
def insertNotification (db : Store) (uid : Nat) (ty ti : String) : Store :=
  { db with notifications := db.notifications ++ [⟨uid, ty, ti⟩] }

/-- Card-swipe directions of Discover.tsx. -/
inductive Direction where
  | left
  | right
  | up
  | down
deriving DecidableEq, Repr

/-- A point at which the store can fail during the swipe path; ok means no
failure.  insertFail is a non-duplicate error on the insert (thrown, then
caught by the catch block); findFail, updateFail and notifyFail are failures
of the later calls, whose error results Discover.tsx never inspects. -/
inductive StoreFault where
  | ok
  | insertFail
  | findFail
  | updateFail
  | notifyFail
deriving DecidableEq, Repr

/-- The store-effect portion of handleSwipe (Discover.tsx lines 119-167)
with fault injection.  Returns (new store, whether triggerMatch ran, whether
an error propagated out of handleSwipe).  The try/catch swallows the thrown
insert error (it only logs), and the results of the select, update and
notification insert are never checked, so no fault ever propagates. -/
def swipeActionF (db : Store) (userId targetId : Nat) (dir : Direction)
    (fault : StoreFault) : Store × Bool × Bool :=
  if dir == Direction.right || dir == Direction.up then
    match fault with
    | StoreFault.insertFail => (db, false, false)
    | _ =>
      let kind := if dir == Direction.up then SwipeType.super else SwipeType.normal
      let db1 := (insertRequest db userId targetId kind).1
      let rev :=
        if fault == StoreFault.findFail then none
        else findMutualMatch db1 targetId userId
      match rev with
      | some mutualMatch =>
          let db2 :=
            if fault == StoreFault.updateFail then db1
            else updateStatus db1 mutualMatch.id Status.matched
          let db3 :=
            if fault == StoreFault.notifyFail then db2
            else insertNotification db2 userId "match" "New Match!"
          (db3, true, false)
      | none => (db1, false, false)
  else (db, false, false)

/-- The store-effect portion of handleSwipe on the fault-free path. -/
def swipeAction (db : Store) (userId targetId : Nat) (dir : Direction) :
    Store × Bool :=
  let res := swipeActionF db userId targetId dir StoreFault.ok
  (res.1, res.2.1)

/-- The component state used by handleSwipe: the fetched profile ids, the
card index, the animation flag and the displayed daily-swipe counter. -/
structure SwipeUI where
  profiles : List Nat
  currentIndex : Nat
  isAnimating : Bool
  dailySwipes : Int
deriving DecidableEq, Repr

/-- handleSwipe of Discover.tsx lines 102-190: early return when animating
or out of cards; otherwise decrement the counter with Math.max(0, prev - 1),
run the store effects against the current profile, and advance the index. -/
def handleSwipe (st : SwipeUI) (db : Store) (userId : Nat) (dir : Direction) :
    SwipeUI × Store × Bool :=
  if st.isAnimating || st.profiles.length ≤ st.currentIndex then (st, db, false)
  else
    let st1 := { st with dailySwipes := max 0 (st.dailySwipes - 1) }
    let target := st.profiles.getD st.currentIndex 0
    let res := swipeAction db userId target dir
    ({ st1 with currentIndex := st1.currentIndex + 1 }, res.1, res.2)

/-- An entry of the pendingRequests component state in Dashboard.tsx:
the request id and the requester (fromUser.id). -/
structure PendingReq where
  id : Nat
  fromUserId : Nat
deriving DecidableEq, Repr

/-- handleAcceptRequest of Dashboard.tsx lines 136-166: set the request row
to "matched" by id (unconditionally), then insert one notification for the
requester if the request is in the pendingRequests state. -/
def handleAcceptRequest (db : Store) (requestId : Nat)
    (pendingRequests : List PendingReq) : Store :=
  let db1 := updateStatus db requestId Status.matched
  match pendingRequests.find? (fun r => r.id == requestId) with
  | some request =>
      insertNotification db1 request.fromUserId "match" "Match Accepted!"
  | none => db1

/-- handleRejectRequest of Dashboard.tsx lines 168-183: set the request row
to "rejected" by id, unconditionally. -/
def handleRejectRequest (db : Store) (requestId : Nat) : Store :=
  updateStatus db requestId Status.rejected

/-- fetchMatches of Dashboard.tsx lines 45-91: all swap_requests with status
"matched" where u is from_user_id or to_user_id; the UI then maps each row
to one displayed entry, with no deduplication per unordered pair. -/
def fetchMatches (db : Store) (u : Nat) : List SwapRequest :=
  db.swap_requests.filter
    (fun r => r.status == Status.matched
      && (r.from_user_id == u || r.to_user_id == u))

/-- fetchPendingRequests of Dashboard.tsx lines 93-134: all swap_requests
with to_user_id = u and status "pending". -/
def fetchPendingRequests (db : Store) (u : Nat) : List SwapRequest :=
  db.swap_requests.filter
    (fun r => r.to_user_id == u && r.status == Status.pending)

/-- Outcome of the store-level submit. -/
inductive SubmitOutcome where
  | created
  | alreadyExists
deriving DecidableEq, Repr

/-- Store error taxonomy of the spec (§7). -/
inductive StoreError where
  | invalidSignal
  | storeUnavailable
deriving DecidableEq, Repr

/-- Modelled from the spec: the Interest Record Store operation
submit(initiator, target, kind) of §4.1, whose self-targeting validation is
enforced at the database layer (schema and constraints), which is not part
of the repository sources; only its caller handleSwipe is.  Per §4.1 and §7
it rejects with InvalidSignal when initiator = target before touching the
store, and otherwise inserts a PENDING record unless the ordered pair
already exists. -/
def submit (db : Store) (initiator target : Nat) (k : SwipeType) :
    Store × Except StoreError SubmitOutcome :=
  if initiator == target then (db, Except.error StoreError.invalidSignal)
  else
    let (db1, dup) := insertRequest db initiator target k
    if dup then (db1, Except.ok SubmitOutcome.alreadyExists)
    else (db1, Except.ok SubmitOutcome.created)

/-- Projection of a swap_request that forgets the swipe_type column,
used to state kind-independence. -/
def eraseKind (r : SwapRequest) : Nat × Nat × Nat × Status :=
  (r.id, r.from_user_id, r.to_user_id, r.status)

/-- An empty store. -/
def dbEmpty : Store := ⟨[], [], 1⟩

/-- A store holding the single pending reverse signal from user 2 to
user 1: the state just before user 1 swipes right on user 2. -/
def dbRev : Store := ⟨[⟨1, 2, 1, SwipeType.normal, Status.pending⟩], [], 2⟩

/-- A store in which both directed records of the pair of users 1 and 2 are
matched. -/
def dbBothMatched : Store :=
  ⟨[⟨1, 1, 2, SwipeType.normal, Status.matched⟩,
    ⟨2, 2, 1, SwipeType.normal, Status.matched⟩], [], 3⟩

/-- The store after user 1 swipes right on user 2 and then user 2 swipes
right on user 1, starting from the empty store: the record 1 to 2 is
matched while the record 2 to 1 is still pending. -/
def dbHalf : Store :=
  (swipeAction (swipeAction dbEmpty 1 2 Direction.right).1 2 1 Direction.right).1

/-- A store where user 2 has a pending request to user 1 (id 1) and the
reverse signal from user 1 to user 2 (id 2) is also pending. -/
def dbAcceptPair : Store :=
  ⟨[⟨1, 2, 1, SwipeType.normal, Status.pending⟩,
    ⟨2, 1, 2, SwipeType.normal, Status.pending⟩], [], 3⟩

/-- Membership in the updated table for the targeted row: updateStatus maps
the row with the given id to the same row with the new status, whatever its
current status was. -/
theorem mem_updateStatus_self (db : Store) (i : Nat) (s : Status)
    (r : SwapRequest) (hm : r ∈ db.swap_requests) (hid : r.id = i) :
    { r with status := s } ∈ (updateStatus db i s).swap_requests := by
  have h := List.mem_map_of_mem
    (fun r => if r.id == i then { r with status := s } else r) hm
  simpa [updateStatus, hid] using h

/-- Membership in the updated table for the other rows: updateStatus leaves
every row whose id differs untouched. -/
theorem mem_updateStatus_other (db : Store) (i : Nat) (s : Status)
    (r : SwapRequest) (hm : r ∈ db.swap_requests) (hid : r.id ≠ i) :
    r ∈ (updateStatus db i s).swap_requests := by
  have h := List.mem_map_of_mem
    (fun r => if r.id == i then { r with status := s } else r) hm
  simpa [updateStatus, hid] using h

/-- updateStatus changes no notifications. -/
theorem updateStatus_notifications (db : Store) (i : Nat) (s : Status) :
    (updateStatus db i s).notifications = db.notifications := rfl

/-- updateStatus preserves the number of rows. -/
theorem updateStatus_length (db : Store) (i : Nat) (s : Status) :
    (updateStatus db i s).swap_requests.length = db.swap_requests.length := by
  simp [updateStatus]

/-- The accept handler touches the swap_requests table exactly as the
unconditional update to matched does, whatever the pendingRequests state. -/
theorem handleAcceptRequest_swap_requests (db : Store) (i : Nat)
    (ps : List PendingReq) :
    (handleAcceptRequest db i ps).swap_requests
      = (updateStatus db i Status.matched).swap_requests := by
  unfold handleAcceptRequest
  cases ps.find? (fun r => r.id == i) <;> rfl

/-- When the accepted request is present in the pendingRequests state, the
accept handler appends exactly one notification, addressed to the
requester. -/
theorem handleAcceptRequest_notifications (db : Store) (i : Nat)
    (ps : List PendingReq) (req : PendingReq)
    (h : ps.find? (fun r => r.id == i) = some req) :
    (handleAcceptRequest db i ps).notifications
      = db.notifications ++ [⟨req.fromUserId, "match", "Match Accepted!"⟩] := by
  unfold handleAcceptRequest
  rw [h]
  rfl

/-- The mutual-match query only ever returns a row whose status is pending:
the swipe-path update is applied only to rows seen pending at lookup time. -/
theorem findMutualMatch_pending (db : Store) (f t : Nat) (R : SwapRequest)
    (h : findMutualMatch db f t = some R) : R.status = Status.pending := by
  have hp := List.find?_some h
  simp only [mmPred, Bool.and_eq_true, beq_iff_eq] at hp
  exact hp.2

/-- When the ordered pair already exists, the insert reports the duplicate
and leaves the store untouched. -/
theorem insertRequest_duplicate (db : Store) (f t : Nat) (k : SwipeType)
    (h : recordExists db f t = true) : insertRequest db f t k = (db, true) := by
  simp [insertRequest, h]

/-- The insert never touches the notifications table. -/
theorem insertRequest_notifications (db : Store) (f t : Nat) (k : SwipeType) :
    ((insertRequest db f t k).1).notifications = db.notifications := by
  unfold insertRequest
  split <;> rfl

/-- Unfolding of the fault-free right-swipe path: insert, reverse lookup,
and on a hit the single update plus the single notification. -/
theorem swipeAction_right_eq (db : Store) (u t : Nat) :
    swipeAction db u t Direction.right =
      (match findMutualMatch ((insertRequest db u t SwipeType.normal).1) t u with
       | some m =>
          (insertNotification
            (updateStatus ((insertRequest db u t SwipeType.normal).1) m.id
              Status.matched) u "match" "New Match!", true)
       | none => ((insertRequest db u t SwipeType.normal).1, false)) := by
  unfold swipeAction swipeActionF
  cases hfm : findMutualMatch ((insertRequest db u t SwipeType.normal).1) t u <;>
    simp [hfm]

/-- Unfolding of the fault-free super-swipe path, identical to the
right-swipe path except for the stored swipe_type. -/
theorem swipeAction_up_eq (db : Store) (u t : Nat) :
    swipeAction db u t Direction.up =
      (match findMutualMatch ((insertRequest db u t SwipeType.super).1) t u with
       | some m =>
          (insertNotification
            (updateStatus ((insertRequest db u t SwipeType.super).1) m.id
              Status.matched) u "match" "New Match!", true)
       | none => ((insertRequest db u t SwipeType.super).1, false)) := by
  unfold swipeAction swipeActionF
  cases hfm : findMutualMatch ((insertRequest db u t SwipeType.super).1) t u <;>
    simp [hfm]

/-- C1: on a mutual submission the code is meant to transition both directed
records to matched (its own comment reads Update both requests to matched),
but evaluated at the failing input — user 2 to user 1 already pending, then
user 1 swipes right on user 2 — the new signal is left pending: the run
commits the reverse record only, producing a half-matched pair. -/
theorem c1_half_matched_after_mutual_swipe :
    (swipeAction dbRev 1 2 Direction.right).2 = true ∧
    (swipeAction dbRev 1 2 Direction.right).1.swap_requests.map eraseKind
      = [(1, 2, 1, Status.matched), (2, 1, 2, Status.pending)] := by
  decide

/-- C2 counterexample: at the same mutual submission a match commit fires
(triggerMatch runs) yet exactly one notification row exists, addressed to
the swiping user 1, and none is addressed to the counterpart user 2 — not
the two events, one per participant, that the claim requires. -/
theorem c2_counterexample :
    (swipeAction dbRev 1 2 Direction.right).2 = true ∧
    (swipeAction dbRev 1 2 Direction.right).1.notifications.length = 1 ∧
    ((swipeAction dbRev 1 2 Direction.right).1.notifications.filter
      (fun n => n.user_id == 2)).length = 0 := by
  decide

/-- C2 amended: every match commit produces exactly one notification event:
on the swipe path its recipient is the swiping user, and on the accept path
its recipient is the original requester. -/
theorem c2_one_notification_per_commit :
    (∀ (db : Store) (u t : Nat) (dir : Direction),
        dir = Direction.right ∨ dir = Direction.up →
        (swipeAction db u t dir).2 = true →
        (swipeAction db u t dir).1.notifications
          = db.notifications ++ [⟨u, "match", "New Match!"⟩]) ∧
    (∀ (db : Store) (i : Nat) (ps : List PendingReq) (req : PendingReq),
        ps.find? (fun r => r.id == i) = some req →
        (handleAcceptRequest db i ps).notifications
          = db.notifications ++ [⟨req.fromUserId, "match", "Match Accepted!"⟩]) := by
  constructor
  · intro db u t dir hdir htrig
    rcases hdir with h | h <;> subst h
    · rw [swipeAction_right_eq] at htrig ⊢
      cases hfm : findMutualMatch ((insertRequest db u t SwipeType.normal).1) t u with
      | none => rw [hfm] at htrig; exact absurd htrig (by simp)
      | some m =>
          show ((insertRequest db u t SwipeType.normal).1).notifications ++ _ = _
          rw [insertRequest_notifications]
    · rw [swipeAction_up_eq] at htrig ⊢
      cases hfm : findMutualMatch ((insertRequest db u t SwipeType.super).1) t u with
      | none => rw [hfm] at htrig; exact absurd htrig (by simp)
      | some m =>
          show ((insertRequest db u t SwipeType.super).1).notifications ++ _ = _
          rw [insertRequest_notifications]
  · intro db i ps req h
    exact handleAcceptRequest_notifications db i ps req h

/-- C2 amended witness: both commit paths evaluated at concrete inputs. -/
theorem c2_one_notification_per_commit_witness :
    (swipeAction dbRev 1 2 Direction.right).1.notifications
      = dbRev.notifications ++ [⟨1, "match", "New Match!"⟩] ∧
    (handleAcceptRequest dbRev 1 [⟨1, 2⟩]).notifications
      = dbRev.notifications ++ [⟨2, "match", "Match Accepted!"⟩] :=
  ⟨c2_one_notification_per_commit.1 dbRev 1 2 Direction.right (Or.inl rfl)
      (by decide),
   c2_one_notification_per_commit.2 dbRev 1 [⟨1, 2⟩] ⟨1, 2⟩ (by decide)⟩

/-- C3 counterexample: the reject handler applied to a record whose status
is already matched still overwrites it to rejected — the update is not
conditional on the current status, and matched is not terminal. -/
theorem c3_counterexample :
    dbBothMatched.swap_requests.map SwapRequest.status
      = [Status.matched, Status.matched] ∧
    (handleRejectRequest dbBothMatched 1).swap_requests.map eraseKind
      = [(1, 1, 2, Status.rejected), (2, 2, 1, Status.matched)] := by
  decide

/-- C3 amended: the status updates of the accept and reject handlers are
unconditional overwrites by record id, applying whatever the current status
is; only the swipe reconciliation restricts itself to records that were
pending at lookup time, via the pending-filtered mutual-match query. -/
theorem c3_unconditional_updates :
    (∀ (db : Store) (i : Nat) (r : SwapRequest),
        r ∈ db.swap_requests → r.id = i →
        { r with status := Status.rejected }
          ∈ (handleRejectRequest db i).swap_requests) ∧
    (∀ (db : Store) (i : Nat) (ps : List PendingReq) (r : SwapRequest),
        r ∈ db.swap_requests → r.id = i →
        { r with status := Status.matched }
          ∈ (handleAcceptRequest db i ps).swap_requests) ∧
    (∀ (db : Store) (f t : Nat) (R : SwapRequest),
        findMutualMatch db f t = some R → R.status = Status.pending) := by
  refine ⟨?_, ?_, ?_⟩
  · intro db i r hm hid
    exact mem_updateStatus_self db i Status.rejected r hm hid
  · intro db i ps r hm hid
    rw [handleAcceptRequest_swap_requests]
    exact mem_updateStatus_self db i Status.matched r hm hid
  · intro db f t R h
    exact findMutualMatch_pending db f t R h

/-- C3 amended witness: the three parts evaluated at concrete inputs. -/
theorem c3_unconditional_updates_witness :
    (⟨1, 1, 2, SwipeType.normal, Status.rejected⟩ : SwapRequest)
      ∈ (handleRejectRequest dbBothMatched 1).swap_requests ∧
    (⟨1, 1, 2, SwipeType.normal, Status.matched⟩ : SwapRequest)
      ∈ (handleAcceptRequest dbBothMatched 1 []).swap_requests ∧
    Status.pending = Status.pending :=
  ⟨c3_unconditional_updates.1 dbBothMatched 1
      ⟨1, 1, 2, SwipeType.normal, Status.matched⟩ (by decide) rfl,
   c3_unconditional_updates.2.1 dbBothMatched 1 []
      ⟨1, 1, 2, SwipeType.normal, Status.matched⟩ (by decide) rfl,
   c3_unconditional_updates.2.2 dbRev 2 1
      ⟨1, 2, 1, SwipeType.normal, Status.pending⟩ (by decide)⟩

/-- C4 counterexample: in the half-matched state reached by two mutual
swipes, resubmitting the already-existing signal from user 1 to user 2 is
reported as a duplicate, yet reconciliation still continues: the reverse
lookup finds the still-pending reverse record, a transition is applied and
a further notification is dispatched — not the no-op the claim requires. -/
theorem c4_counterexample :
    recordExists dbHalf 1 2 = true ∧
    (swipeAction dbHalf 1 2 Direction.right).2 = true ∧
    (swipeAction dbHalf 1 2 Direction.right).1.notifications.length
      = dbHalf.notifications.length + 1 ∧
    (swipeAction dbHalf 1 2 Direction.right).1 ≠ dbHalf := by
  decide

/-- C4 amended: when the ordered pair already exists the duplicate-key
report is absorbed and no new row is inserted, but the algorithm does not
stop: the reverse lookup still runs, and if the reverse record is pending
the transition and the notification dispatch run again; only when the
reverse lookup misses is the resubmission a complete no-op. -/
theorem c4_resubmission_continues :
    ∀ (db : Store) (a b : Nat),
      recordExists db a b = true →
      ((swipeAction db a b Direction.right).1.swap_requests.length
          = db.swap_requests.length) ∧
      (findMutualMatch db b a = none →
          swipeAction db a b Direction.right = (db, false)) ∧
      (∀ R, findMutualMatch db b a = some R →
          (swipeAction db a b Direction.right).2 = true ∧
          (swipeAction db a b Direction.right).1.notifications
            = db.notifications ++ [⟨a, "match", "New Match!"⟩]) := by
  intro db a b hex
  have hins : (insertRequest db a b SwipeType.normal).1 = db := by
    rw [insertRequest_duplicate db a b SwipeType.normal hex]
  refine ⟨?_, ?_, ?_⟩
  · rw [swipeAction_right_eq, hins]
    cases hfm : findMutualMatch db b a with
    | none => rfl
    | some m =>
        show ((updateStatus db m.id Status.matched).swap_requests).length = _
        exact updateStatus_length db m.id Status.matched
  · intro hnone
    rw [swipeAction_right_eq, hins, hnone]
  · intro R hR
    rw [swipeAction_right_eq, hins, hR]
    exact ⟨rfl, rfl⟩

/-- C4 amended witness: the resubmission in the half-matched state. -/
theorem c4_resubmission_continues_witness :
    (swipeAction dbHalf 1 2 Direction.right).1.swap_requests.length
        = dbHalf.swap_requests.length ∧
    (swipeAction dbHalf 1 2 Direction.right).2 = true ∧
    (swipeAction dbHalf 1 2 Direction.right).1.notifications
      = dbHalf.notifications ++ [⟨1, "match", "New Match!"⟩] :=
  ⟨(c4_resubmission_continues dbHalf 1 2 (by decide)).1,
   (c4_resubmission_continues dbHalf 1 2 (by decide)).2.2
      ⟨2, 2, 1, SwipeType.normal, Status.pending⟩ (by decide)⟩

/-- C5 counterexample: accepting the pending request from user 2 while the
reverse signal from user 1 to user 2 is also pending commits only the
identified request record; the other directed record of the pair stays
pending, so accept does not perform the both-records mutual-match commit
the claim describes. -/
theorem c5_counterexample :
    (handleAcceptRequest dbAcceptPair 1 [⟨1, 2⟩]).swap_requests.map eraseKind
      = [(1, 2, 1, Status.matched), (2, 1, 2, Status.pending)] := by
  decide

/-- C5 amended: accept sets exactly the identified request record to
matched, leaves every other record untouched, and dispatches one
notification to the requester; reject sets the identified record to
rejected, with no guard on its prior status in either handler. -/
theorem c5_accept_reject_effects :
    (∀ (db : Store) (i : Nat) (ps : List PendingReq) (r : SwapRequest),
        r ∈ db.swap_requests → r.id ≠ i →
        r ∈ (handleAcceptRequest db i ps).swap_requests) ∧
    (∀ (db : Store) (i : Nat) (ps : List PendingReq) (r : SwapRequest),
        r ∈ db.swap_requests → r.id = i →
        { r with status := Status.matched }
          ∈ (handleAcceptRequest db i ps).swap_requests) ∧
    (∀ (db : Store) (i : Nat) (ps : List PendingReq) (req : PendingReq),
        ps.find? (fun p => p.id == i) = some req →
        (handleAcceptRequest db i ps).notifications
          = db.notifications ++ [⟨req.fromUserId, "match", "Match Accepted!"⟩]) ∧
    (∀ (db : Store) (i : Nat) (r : SwapRequest),
        r ∈ db.swap_requests → r.id = i →
        { r with status := Status.rejected }
          ∈ (handleRejectRequest db i).swap_requests) := by
  refine ⟨?_, ?_, ?_, ?_⟩
  · intro db i ps r hm hid
    rw [handleAcceptRequest_swap_requests]
    exact mem_updateStatus_other db i Status.matched r hm hid
  · intro db i ps r hm hid
    rw [handleAcceptRequest_swap_requests]
    exact mem_updateStatus_self db i Status.matched r hm hid
  · intro db i ps req h
    exact handleAcceptRequest_notifications db i ps req h
  · intro db i r hm hid
    exact mem_updateStatus_self db i Status.rejected r hm hid

/-- C5 amended witness: the four parts evaluated on the pending pair. -/
theorem c5_accept_reject_effects_witness :
    (⟨2, 1, 2, SwipeType.normal, Status.pending⟩ : SwapRequest)
      ∈ (handleAcceptRequest dbAcceptPair 1 [⟨1, 2⟩]).swap_requests ∧
    (⟨1, 2, 1, SwipeType.normal, Status.matched⟩ : SwapRequest)
      ∈ (handleAcceptRequest dbAcceptPair 1 [⟨1, 2⟩]).swap_requests ∧
    (handleAcceptRequest dbAcceptPair 1 [⟨1, 2⟩]).notifications
      = dbAcceptPair.notifications ++ [⟨2, "match", "Match Accepted!"⟩] ∧
    (⟨1, 2, 1, SwipeType.normal, Status.rejected⟩ : SwapRequest)
      ∈ (handleRejectRequest dbAcceptPair 1).swap_requests :=
  ⟨c5_accept_reject_effects.1 dbAcceptPair 1 [⟨1, 2⟩]
      ⟨2, 1, 2, SwipeType.normal, Status.pending⟩ (by decide) (by decide),
   c5_accept_reject_effects.2.1 dbAcceptPair 1 [⟨1, 2⟩]
      ⟨1, 2, 1, SwipeType.normal, Status.pending⟩ (by decide) rfl,
   c5_accept_reject_effects.2.2.1 dbAcceptPair 1 [⟨1, 2⟩] ⟨1, 2⟩ (by decide),
   c5_accept_reject_effects.2.2.2 dbAcceptPair 1
      ⟨1, 2, 1, SwipeType.normal, Status.pending⟩ (by decide) rfl⟩

/-- C6 counterexample: with both directed records of the single unordered
pair of users 1 and 2 matched, the matches view of user 1 surfaces two
entries — the projection is not deduplicated per unordered pair. -/
theorem c6_counterexample :
    fetchMatches dbBothMatched 1
      = [⟨1, 1, 2, SwipeType.normal, Status.matched⟩,
         ⟨2, 2, 1, SwipeType.normal, Status.matched⟩] ∧
    (fetchMatches dbBothMatched 1).length = 2 := by
  decide

/-- C6 amended: the matches view of user u consists of exactly the stored
records with status matched in which u is initiator or target, with no
deduplication per unordered pair; in particular a record whose status is
pending, such as a lone directed signal with no reverse, never appears in
either participant view. -/
theorem c6_fetchMatches_characterization :
    ∀ (db : Store) (u : Nat) (r : SwapRequest),
      r ∈ fetchMatches db u ↔
        r ∈ db.swap_requests ∧ r.status = Status.matched ∧
          (r.from_user_id = u ∨ r.to_user_id = u) := by
  intro db u r
  simp [fetchMatches, List.mem_filter, and_assoc]

/-- C6 amended witness: the characterization evaluated on the two-record
store in both directions. -/
theorem c6_fetchMatches_characterization_witness :
    (⟨1, 1, 2, SwipeType.normal, Status.matched⟩ : SwapRequest)
      ∈ fetchMatches dbBothMatched 1 ∧
    ¬ (⟨1, 1, 2, SwipeType.normal, Status.pending⟩ : SwapRequest)
      ∈ fetchMatches dbRev 1 :=
  ⟨(c6_fetchMatches_characterization dbBothMatched 1
      ⟨1, 1, 2, SwipeType.normal, Status.matched⟩).mpr
      ⟨by decide, rfl, Or.inl rfl⟩,
   fun h =>
     by
       have hc := (c6_fetchMatches_characterization dbRev 1
          ⟨1, 1, 2, SwipeType.normal, Status.pending⟩).mp h
       exact absurd hc.2.1 (by decide)⟩

/-- C7: modelled from the spec, a self-targeting submission fails with
InvalidSignal and the returned store is the input store unchanged — no
record is inserted, looked up or transitioned. -/
theorem c7_self_submit_rejected :
    ∀ (db : Store) (u : Nat) (k : SwipeType),
      submit db u u k = (db, Except.error StoreError.invalidSignal) := by
  intro db u k
  simp [submit]

/-- C8 counterexample: with the store unavailable at the insert step of the
reconciliation, handleSwipe still completes with no error propagated to the
caller (third component false): the failure is caught and only logged, so
no retryable failure surfaces, contrary to the claim. -/
theorem c8_counterexample :
    swipeActionF dbRev 1 2 Direction.right StoreFault.insertFail
      = (dbRev, false, false) := by
  decide

/-- C8 amended: no store fault at any step of the swipe path ever
propagates out of handleSwipe: the insert error is caught and logged, and
the error results of the reverse lookup, the update and the notification
insert are never inspected. -/
theorem c8_no_error_propagates :
    ∀ (db : Store) (u t : Nat) (dir : Direction) (fault : StoreFault),
      (swipeActionF db u t dir fault).2.2 = false := by
  intro db u t dir fault
  unfold swipeActionF
  cases dir <;> cases fault <;> simp <;> (try split) <;> simp

/-- C9: the kind of a signal never affects matching logic: a super swipe
and a normal swipe on the same store and pair produce stores whose
swap_requests agree except for the stored swipe_type column, identical
notifications, and the same match-commit outcome. -/
theorem c9_kind_does_not_affect_matching :
    ∀ (db : Store) (u t : Nat),
      ((swipeAction db u t Direction.up).1.swap_requests.map eraseKind
        = (swipeAction db u t Direction.right).1.swap_requests.map eraseKind) ∧
      ((swipeAction db u t Direction.up).1.notifications
        = (swipeAction db u t Direction.right).1.notifications) ∧
      ((swipeAction db u t Direction.up).2
        = (swipeAction db u t Direction.right).2) := by
  intro db u t
  rw [swipeAction_up_eq, swipeAction_right_eq]
  by_cases hex : recordExists db u t = true
  · simp only [insertRequest_duplicate db u t SwipeType.super hex,
      insertRequest_duplicate db u t SwipeType.normal hex]
    cases hfm : findMutualMatch db t u <;> simp [hfm]
  · have hex2 : recordExists db u t = false := by
      simpa using hex
    have h1 : (insertRequest db u t SwipeType.super).1
        = { db with
            swap_requests := db.swap_requests
              ++ [⟨db.nextId, u, t, SwipeType.super, Status.pending⟩],
            nextId := db.nextId + 1 } := by
      simp [insertRequest, hex2]
    have h2 : (insertRequest db u t SwipeType.normal).1
        = { db with
            swap_requests := db.swap_requests
              ++ [⟨db.nextId, u, t, SwipeType.normal, Status.pending⟩],
            nextId := db.nextId + 1 } := by
      simp [insertRequest, hex2]
    rw [h1, h2]
    have hfind : ∀ (k : SwipeType),
        findMutualMatch
          { db with
              swap_requests := db.swap_requests
                ++ [⟨db.nextId, u, t, k, Status.pending⟩],
              nextId := db.nextId + 1 } t u
          = (db.swap_requests.find? (mmPred t u)).or
              (cond (u == t && t == u)
                (some (⟨db.nextId, u, t, k, Status.pending⟩ : SwapRequest))
                none) := by
      intro k
      show (db.swap_requests
          ++ [(⟨db.nextId, u, t, k, Status.pending⟩ : SwapRequest)]).find? (mmPred t u) = _
      rw [List.find?_append]
      congr 1
      cases hc : (u == t && t == u) <;> simp [List.find?, mmPred, hc]
    rw [hfind, hfind]
    cases hfl : db.swap_requests.find? (mmPred t u) with
    | some R =>
        simp only [Option.or]
        by_cases hni : db.nextId = R.id <;>
          simp [insertNotification, updateStatus, List.map_append, List.map_map,
            Function.comp, apply_ite eraseKind, eraseKind, hni]
    | none =>
        simp only [Option.or]
        cases hc : (u == t && t == u) with
        | true =>
            simp only [cond]
            simp [insertNotification, updateStatus, List.map_append, List.map_map,
              Function.comp, apply_ite eraseKind, eraseKind]
        | false =>
            simp only [cond]
            simp [List.map_append, eraseKind]

/-- C10: the daily-swipe counter never gates submission: whenever the
animation guard passes, handleSwipe clamps the counter at zero and still
performs the store effects of the swipe — in particular, when no record for
the directed pair exists yet, the insert adds a row even if the displayed
counter is already zero. -/
theorem c10_counter_never_gates :
    ∀ (st : SwipeUI) (db : Store) (u : Nat) (dir : Direction),
      st.isAnimating = false →
      st.currentIndex < st.profiles.length →
      ((handleSwipe st db u dir).1.dailySwipes
          = max 0 (st.dailySwipes - 1) ∧
        (handleSwipe st db u dir).2.1
          = (swipeAction db u (st.profiles.getD st.currentIndex 0) dir).1 ∧
        (dir = Direction.right →
          recordExists db u (st.profiles.getD st.currentIndex 0) = false →
          (handleSwipe st db u dir).2.1.swap_requests.length
            = db.swap_requests.length + 1)) := by
  intro st db u dir hanim hidx
  have hguard : (st.isAnimating || st.profiles.length ≤ st.currentIndex) = false := by
    simp [hanim]
    omega
  have h2 : (handleSwipe st db u dir).2.1
      = (swipeAction db u (st.profiles.getD st.currentIndex 0) dir).1 := by
    simp [handleSwipe, hguard]
  have haux : ∀ (d : Store) (a b : Nat), recordExists d a b = false →
      (swipeAction d a b Direction.right).1.swap_requests.length
        = d.swap_requests.length + 1 := by
    intro d a b hx
    have hins : (insertRequest d a b SwipeType.normal).1.swap_requests.length
        = d.swap_requests.length + 1 := by
      simp [insertRequest, hx]
    rw [swipeAction_right_eq]
    cases hfm : findMutualMatch ((insertRequest d a b SwipeType.normal).1) b a with
    | none => exact hins
    | some m =>
        show ((updateStatus _ m.id Status.matched).swap_requests).length = _
        rw [updateStatus_length]
        exact hins
  refine ⟨by simp [handleSwipe, hguard], h2, ?_⟩
  intro hdir hex
  subst hdir
  rw [h2]
  exact haux db u (st.profiles.getD st.currentIndex 0) hex

/-- C10 witness: with the displayed counter already at zero, a right swipe
on the empty store still inserts the interest record and the counter stays
clamped at zero. -/
theorem c10_counter_never_gates_witness :
    (handleSwipe ⟨[2], 0, false, 0⟩ dbEmpty 1 Direction.right).1.dailySwipes
        = max 0 ((0 : Int) - 1) ∧
    (handleSwipe ⟨[2], 0, false, 0⟩ dbEmpty 1 Direction.right).2.1
        = (swipeAction dbEmpty 1 2 Direction.right).1 ∧
    (handleSwipe ⟨[2], 0, false, 0⟩ dbEmpty 1 Direction.right).2.1.swap_requests.length
        = dbEmpty.swap_requests.length + 1 :=
  ⟨(c10_counter_never_gates ⟨[2], 0, false, 0⟩ dbEmpty 1 Direction.right rfl
      (by decide)).1,
   (c10_counter_never_gates ⟨[2], 0, false, 0⟩ dbEmpty 1 Direction.right rfl
      (by decide)).2.1,
   (c10_counter_never_gates ⟨[2], 0, false, 0⟩ dbEmpty 1 Direction.right rfl
      (by decide)).2.2 rfl (by decide)⟩

end Swapit
